import Mathlib

/-!
# Verification of the financial ingestion and scoring engine (yorizo_back)

Shallow embedding of the pure core of the repository's financial-statement
subsystem, translated from:

* `app/services/company_report.py` (ratio calculators, score ladders, radar),
* `app/services/financial_statement_service.py` (PDF label loop, upsert),
* `app/services/financial_statement_parser.py` (`_parse_metrics`),
* `app/services/financial_import.py` (`parse_local_benchmark` derivation),
* `app/services/pdf_financials.py` / `app/services/pdf_financial_parser.py`
  (numeric token normalizers),
* `app/services/financials.py` (document-keyed upsert).

Python `float`/`Decimal` values are modelled as `ℚ` (all operations used by
the embedded code are +, -, *, / and comparisons, which agree exactly);
`Optional[x]` is `Option _`; dicts are association lists looked up with
`List.lookup`, or records with `Option` fields where the code's key set is
fixed.
-/

namespace Yorizo

/-- Characters treated as whitespace by Python's `str.strip` / `re` `\s`
for the character repertoire appearing in this code base. -/
def isPyWs (c : Char) : Bool :=
  c = ' ' || c = '\t' || c = '\n' || c = '\r' || c = '\x0b' || c = '\x0c' ||
  c = ' ' || c = '　'

/-- Python `str.strip()` on a character list: drop whitespace from both ends. -/
def pyStrip (l : List Char) : List Char :=
  ((l.dropWhile isPyWs).reverse.dropWhile isPyWs).reverse

/-- Numeric value of a digit list, most significant first. -/
def natOfDigits (l : List Char) : Nat :=
  l.foldl (fun a c => a * 10 + (c.toNat - 48)) 0

/-- Model of Python `float(s)` (and `Decimal(s)`, which agrees on these
inputs) for the token shapes reachable from this code base's call sites:
an optional single ASCII sign followed by decimal digits with at most one
decimal point and at least one digit.  The call sites feed only tokens
extracted by regexes of the form `[+-]?\d[\d,]*\.?\d*` (commas removed) or
cleaned statement tokens, so exponents, underscores, `inf`/`nan` words and
non-ASCII digits never occur; any other shape makes Python raise, which the
embedded callers catch and turn into `none`, so here it is `none` directly. -/
def pyFloat (l : List Char) : Option ℚ :=
  let neg : Bool := match l with | '-' :: _ => true | _ => false
  let rest := match l with | '+' :: r => r | '-' :: r => r | r => r
  let intPart := rest.takeWhile Char.isDigit
  let rest2 := rest.dropWhile Char.isDigit
  let signed : ℚ → Option ℚ := fun v => some (if neg then -v else v)
  match rest2 with
  | [] =>
    if intPart.isEmpty then none
    else signed (natOfDigits intPart : ℚ)
  | '.' :: r3 =>
    let frac := r3.takeWhile Char.isDigit
    let rest4 := r3.dropWhile Char.isDigit
    if ¬ rest4.isEmpty then none
    else if intPart.isEmpty ∧ frac.isEmpty then none
    else signed ((natOfDigits intPart : ℚ) +
      (natOfDigits frac : ℚ) / ((10 ^ frac.length : ℕ) : ℚ))
  | _ => none

/-- Embeds `app/services/pdf_financials.py::_to_number`: strip, drop commas, map the
triangle/overline minus variants (`▲ △ − －`) to `-`, unwrap a
`(value)` parenthesis pair into a leading `-`, then `float(...)`,
with any failure returning `None`. -/
def _to_number (token : String) : Option ℚ :=
  let cleaned := pyStrip token.toList
  if cleaned.isEmpty then none
  else
    let c1 := cleaned.filter (fun c => c ≠ ',')
    let c2 := c1.map (fun c =>
      if c = '▲' ∨ c = '△' ∨ c = '−' ∨ c = '－' then '-' else c)
    let c3 :=
      if c2.head? = some '(' ∧ c2.getLast? = some ')' then
        '-' :: (c2.drop 1).dropLast
      else c2
    pyFloat c3

/-- Embeds `app/services/pdf_financial_parser.py::_parse_number`: same as
`_to_number` except the replacement set omits the full-width hyphen `－`. -/
def _parse_number (token : String) : Option ℚ :=
  let cleaned := pyStrip token.toList
  if cleaned.isEmpty then none
  else
    let c1 := cleaned.filter (fun c => c ≠ ',')
    let c2 := c1.map (fun c =>
      if c = '△' ∨ c = '▲' ∨ c = '−' then '-' else c)
    let c3 :=
      if c2.head? = some '(' ∧ c2.getLast? = some ')' then
        '-' :: (c2.drop 1).dropLast
      else c2
    pyFloat c3

/-! ## Ratio calculators and score ladders (`app/services/company_report.py`)

Database column values reach these functions through `_to_float`, which maps
`None` to `None` and numbers to themselves, so the embedding works directly
on `Option ℚ`. -/

/-- Embeds `app/services/company_report.py::_safe_div`. -/
def _safe_div (numerator denominator : Option ℚ) : Option ℚ :=
  match numerator, denominator with
  | some num, some den => if den = 0 then none else some (num / den)
  | _, _ => none

/-- Embeds `calc_sales_sustainability`: `(current - prev) / prev * 100`, `None`
when either input is `None` or `prev_sales <= 0`. -/
def calc_sales_sustainability (current_sales prev_sales : Option ℚ) : Option ℚ :=
  match current_sales, prev_sales with
  | some c, some p => if p ≤ 0 then none else some ((c - p) / p * 100)
  | _, _ => none

/-- Embeds `calc_profitability`: `operating_profit / sales * 100`, `None` when either
input is `None` or `sales <= 0`. -/
def calc_profitability (operating_profit sales : Option ℚ) : Option ℚ :=
  match operating_profit, sales with
  | some op, some s => if s ≤ 0 then none else some (op / s * 100)
  | _, _ => none

/-- Embeds `calc_soundness_years`: debt / (net_income + depreciation), `None` when
debt is `None`/`<= 0` or the cash-flow proxy is `<= 0`.  The
`operating_profit` argument is accepted and ignored, as in the source. -/
def calc_soundness_years (interest_bearing_debt operating_profit depreciation
    net_income : Option ℚ) : Option ℚ :=
  match interest_bearing_debt with
  | none => none
  | some debt =>
    if debt ≤ 0 then none
    else
      let cf := net_income.getD 0 + depreciation.getD 0
      if cf ≤ 0 then none else _safe_div (some debt) (some cf)

/-- Embeds `calc_working_capital_months`: `(receivables + inventory - payables) /
sales * 12`, clamped below at 0; `None` when `sales` is `None`/`<= 0`. -/
def calc_working_capital_months (receivables inventory payables
    sales : Option ℚ) : Option ℚ :=
  match sales with
  | none => none
  | some s =>
    if s ≤ 0 then none
    else
      let months := (receivables.getD 0 + inventory.getD 0 - payables.getD 0) / s * 12
      some (if months < 0 then 0 else months)

/-- Embeds `calc_equity_ratio_pct`: `equity / total_assets * 100`, `None` when either
input is `None` or `total_assets <= 0`. -/
def calc_equity_ratio_pct (equity total_assets : Option ℚ) : Option ℚ :=
  match equity, total_assets with
  | some e, some t => if t ≤ 0 then none else some (e / t * 100)
  | _, _ => none

/-- Embeds `score_sales_growth` ladder; `None` raw value gives `None`. -/
def score_sales_growth (pct : Option ℚ) : Option ℤ :=
  match pct with
  | none => none
  | some p =>
    if 10 ≤ p then some 5 else if 5 ≤ p then some 4 else if 0 ≤ p then some 3
    else if -10 ≤ p then some 2 else some 1

/-- Embeds `score_profit_margin` ladder; `None` raw value gives `None`. -/
def score_profit_margin (pct : Option ℚ) : Option ℤ :=
  match pct with
  | none => none
  | some p =>
    if 10 ≤ p then some 5 else if 5 ≤ p then some 4 else if 0 ≤ p then some 3
    else if -5 ≤ p then some 2 else some 1

/-- Embeds `score_debt_years` ladder; a `None` ratio gives the neutral score 3
(source comment `中立`).  `borrowings` and `ebitda` are accepted and ignored,
as in the source. -/
def score_debt_years (years : Option ℚ) (borrowings ebitda : Option ℚ) : Option ℤ :=
  match years with
  | none => some 3
  | some y =>
    if y ≤ 0 then some 5 else if y ≤ 3 then some 4 else if y ≤ 5 then some 3
    else if y ≤ 7 then some 2 else some 1

/-- Embeds `score_working_capital_months` ladder; a `None` value gives the neutral
score 3. -/
def score_working_capital_months (months : Option ℚ) : Option ℤ :=
  match months with
  | none => some 3
  | some m =>
    if m ≤ 1 then some 5 else if m ≤ 2 then some 4 else if m ≤ 3 then some 3
    else if m ≤ 4 then some 2 else some 1

/-- Embeds `score_equity_ratio` ladder; a `None` value gives the neutral score 3. -/
def score_equity_ratio (pct : Option ℚ) : Option ℤ :=
  match pct with
  | none => some 3
  | some p =>
    if 30 ≤ p then some 5 else if 20 ≤ p then some 4 else if 10 ≤ p then some 3
    else if 0 ≤ p then some 2 else some 1

/-! ## Financial statement records -/

/-- One financial-statement record: the `FinancialStatement` columns used by
the parsing, alignment and scoring code (`FINANCIAL_FIELDS` plus
`fiscal_year`).  Every metric is independently optional; a dict key that is
absent and a key stored as `None` both embed to `none` (the embedded code
treats them identically at every site where both can occur). -/
structure FinRow where
  fiscal_year : Option ℤ := none
  sales : Option ℚ := none
  operating_profit : Option ℚ := none
  ordinary_profit : Option ℚ := none
  net_income : Option ℚ := none
  depreciation : Option ℚ := none
  labor_cost : Option ℚ := none
  current_assets : Option ℚ := none
  current_liabilities : Option ℚ := none
  fixed_assets : Option ℚ := none
  total_assets : Option ℚ := none
  equity : Option ℚ := none
  total_liabilities : Option ℚ := none
  employees : Option ℚ := none
  cash_and_deposits : Option ℚ := none
  receivables : Option ℚ := none
  inventory : Option ℚ := none
  payables : Option ℚ := none
  borrowings : Option ℚ := none
  interest_bearing_debt : Option ℚ := none
  previous_sales : Option ℚ := none
  deriving DecidableEq, Repr

/-- The all-`none` record (a freshly constructed `FinancialStatement`). -/
def blankRow : FinRow := {}

/-! ## Radar construction (`_compute_kpis` / `_build_radar`) -/

/-- The five axis labels `AXES` of `app/services/company_report.py`. -/
def AXES : List String := ["売上持続性", "収益性", "健全性", "効率性", "安全性"]

/-- One KPI entry in the list built by `_compute_kpis`.  The cosmetic
`value_display` string (a rounded rendering of `raw`) carries no data that
`raw` does not and is omitted. -/
structure KPIEntry where
  key : String
  label : String
  raw : Option ℚ
  score : Option ℤ
  deriving DecidableEq, Repr

/-- Embeds `_compute_kpis`: raw ratios and scores for one statement.  `prev_sales`
(from the next-older statement) takes precedence over the stored
`previous_sales` column; borrowings come from `interest_bearing_debt`,
falling back to `borrowings`. -/
def _compute_kpis (stmt : FinRow) (prev_sales : Option ℚ) : List KPIEntry :=
  let sales := stmt.sales
  let previous_sales := match prev_sales with
    | some p => some p
    | none => stmt.previous_sales
  let borrowings := match stmt.interest_bearing_debt with
    | some b => some b
    | none => stmt.borrowings
  let raw_sales_growth := calc_sales_sustainability sales previous_sales
  let raw_profitability := calc_profitability stmt.operating_profit sales
  let raw_soundness :=
    calc_soundness_years borrowings stmt.operating_profit stmt.depreciation stmt.net_income
  let raw_efficiency :=
    calc_working_capital_months stmt.receivables stmt.inventory stmt.payables sales
  let raw_safety := calc_equity_ratio_pct stmt.equity stmt.total_assets
  [ { key := "sales_sustainability", label := AXES.getD 0 "", raw := raw_sales_growth,
      score := score_sales_growth raw_sales_growth },
    { key := "profitability", label := AXES.getD 1 "", raw := raw_profitability,
      score := score_profit_margin raw_profitability },
    { key := "soundness", label := AXES.getD 2 "", raw := raw_soundness,
      score := score_debt_years raw_soundness borrowings
        (some (stmt.net_income.getD 0 + stmt.depreciation.getD 0)) },
    { key := "efficiency", label := AXES.getD 3 "", raw := raw_efficiency,
      score := score_working_capital_months raw_efficiency },
    { key := "safety", label := AXES.getD 4 "", raw := raw_safety,
      score := score_equity_ratio raw_safety } ]

/-- One radar period as assembled by `_build_radar`. -/
structure RadarPeriod where
  label : String
  scores : List ℚ
  raw_values : List (Option ℚ)
  kpis : List KPIEntry
  deriving DecidableEq, Repr

/-- Positional fallback label used when a statement has no usable
fiscal year. -/
def posLabel (idx : ℕ) : String :=
  if idx = 0 then "最新期" else if idx = 1 then "前期" else "前々期"

/-- The body of `_build_radar`'s loop: one `RadarPeriod` per statement, with
`prev_sales` read from the sales of the next (older) statement in the list.
A `None` score is rendered as `0.0` in `scores` while the `kpis` entry keeps
the `None`. -/
def buildRadarGo (idx : ℕ) : List FinRow → List RadarPeriod
  | [] => []
  | stmt :: rest =>
    let prev_sales := match rest with
      | [] => none
      | nxt :: _ => nxt.sales
    let kpis := _compute_kpis stmt prev_sales
    let label := match stmt.fiscal_year with
      | some fy => if fy ≠ 0 then s!"{fy}期" else posLabel idx
      | none => posLabel idx
    { label := label,
      scores := kpis.map (fun k => match k.score with
        | some s => (s : ℚ)
        | none => 0),
      raw_values := kpis.map (fun k => k.raw),
      kpis := kpis } :: buildRadarGo (idx + 1) rest

/-- Embeds `_build_radar` (periods part; the `axes` component is the constant
`AXES`). -/
def _build_radar (financials : List FinRow) : List RadarPeriod :=
  buildRadarGo 0 financials

/-! ## Alignment (`parse_local_benchmark` derivation + `upsert_financial_rows`
sort/backfill) -/

/-- The per-entry derivation step at the end of
`app/services/financial_import.py::parse_local_benchmark` (lines 149-160):
`total_liabilities := payables` when `total_liabilities` is `None` and
`payables` truthy; `current_assets := cash + receivables + inventory`
(absent components read as 0) via `setdefault`; `current_liabilities :=
payables if payables else None` via `setdefault`.  The three updated fields
are pairwise distinct and only read fields none of them writes, so the
sequential dict updates are one simultaneous record update.  `label_map`
contains no keyword for `current_assets`/`current_liabilities`, so for rows
this code produces, "`setdefault` fires" coincides with "value is `none`". -/
def deriveEntry (e : FinRow) : FinRow :=
  let receivables := e.receivables.getD 0
  let inventory := e.inventory.getD 0
  let cash := e.cash_and_deposits.getD 0
  let payables := e.payables.getD 0
  { e with
    total_liabilities :=
      if e.total_liabilities = none ∧ payables ≠ 0 then some payables
      else e.total_liabilities,
    current_assets :=
      if e.current_assets = none then some (cash + receivables + inventory)
      else e.current_assets,
    current_liabilities :=
      if e.current_liabilities = none then
        (if payables ≠ 0 then some payables else none)
      else e.current_liabilities }

/-- Sort key of `upsert_financial_rows`: the fiscal year (rows without one
were filtered out just before, so the `getD` default is never read). -/
def keyOf (r : FinRow) : ℤ := r.fiscal_year.getD 0

/-- Descending-by-year order used by `sorted(..., reverse=True)`. -/
def rdesc (a b : FinRow) : Prop := keyOf b ≤ keyOf a

instance : DecidableRel rdesc := fun a b => inferInstanceAs (Decidable (keyOf b ≤ keyOf a))

instance : IsTotal FinRow rdesc := ⟨fun a b => le_total (keyOf b) (keyOf a)⟩

instance : IsTrans FinRow rdesc := ⟨fun _ _ _ h1 h2 => le_trans h2 h1⟩

/-- Embeds `sorted(normalized, key=fiscal_year, reverse=True)`.  Python's sort is
stable, and a stable sort is unique, so the stable `insertionSort` computes
the same list. -/
def sortDesc (l : List FinRow) : List FinRow := l.insertionSort rdesc

/-- The `previous_sales` backfill loop of `upsert_financial_rows` (lines
169-171): a row whose `previous_sales` is absent receives the `sales` of the
next row; the loop never writes `sales`, so reading the original next row is
exact. -/
def backfill : List FinRow → List FinRow
  | [] => []
  | [r] => [r]
  | r :: s :: t =>
    (if r.previous_sales = none then { r with previous_sales := s.sales } else r)
      :: backfill (s :: t)

/-- The `fiscal_year is not None` filter of `upsert_financial_rows`
(line 161). -/
def filterYear (l : List FinRow) : List FinRow :=
  l.filter (fun r => r.fiscal_year.isSome)

/-- Row normalization inside `upsert_financial_rows`: drop year-less rows,
sort latest→earliest, backfill `previous_sales`. -/
def upsertNormalize (rows : List FinRow) : List FinRow :=
  backfill (sortDesc (filterYear rows))

/-- The full alignment step of the ingestion pipeline: the
`parse_local_benchmark` derivation followed by `upsert_financial_rows`'s
filter, descending sort and `previous_sales` backfill. -/
def align (rows : List FinRow) : List FinRow :=
  upsertNormalize (rows.map deriveEntry)

/-! ## Upsert (`upsert_financial_rows` / `financials.py`) -/

/-- A persisted `FinancialStatement` row. -/
structure DbStmt where
  company_id : String
  fields : FinRow
  deriving DecidableEq, Repr

/-- The field-copy loop of `upsert_financial_rows` (lines 186-188): for each
field in `FINANCIAL_FIELDS`, copy the incoming value only when it is present
and not `None`.  `fiscal_year` is not in `FINANCIAL_FIELDS` and is never
copied here. -/
def mergeFields (s r : FinRow) : FinRow :=
  { fiscal_year := s.fiscal_year,
    sales := r.sales.or s.sales,
    operating_profit := r.operating_profit.or s.operating_profit,
    ordinary_profit := r.ordinary_profit.or s.ordinary_profit,
    net_income := r.net_income.or s.net_income,
    depreciation := r.depreciation.or s.depreciation,
    labor_cost := r.labor_cost.or s.labor_cost,
    current_assets := r.current_assets.or s.current_assets,
    current_liabilities := r.current_liabilities.or s.current_liabilities,
    fixed_assets := r.fixed_assets.or s.fixed_assets,
    total_assets := r.total_assets.or s.total_assets,
    equity := r.equity.or s.equity,
    total_liabilities := r.total_liabilities.or s.total_liabilities,
    employees := r.employees.or s.employees,
    cash_and_deposits := r.cash_and_deposits.or s.cash_and_deposits,
    receivables := r.receivables.or s.receivables,
    inventory := r.inventory.or s.inventory,
    payables := r.payables.or s.payables,
    borrowings := r.borrowings.or s.borrowings,
    interest_bearing_debt := r.interest_bearing_debt.or s.interest_bearing_debt,
    previous_sales := r.previous_sales.or s.previous_sales }

/-- The natural-key lookup of `upsert_financial_rows`: first statement with
this `company_id` and `fiscal_year`. -/
def findStmt (db : List DbStmt) (company : String) (fy : Option ℤ) : Option DbStmt :=
  db.find? (fun s => decide (s.company_id = company ∧ s.fields.fiscal_year = fy))

/-- Replace the first row satisfying the predicate. -/
def replaceFirst (p : DbStmt → Bool) (new : DbStmt) : List DbStmt → List DbStmt
  | [] => []
  | s :: t => if p s then new :: t else s :: replaceFirst p new t

/-- One iteration of `upsert_financial_rows`'s per-row loop: update the first
statement matching `(company_id, fiscal_year)` in place, or create a fresh
statement carrying that key and copy the non-`None` fields onto it. -/
def upsertOne (db : List DbStmt) (company : String) (row : FinRow) : List DbStmt :=
  match findStmt db company row.fiscal_year with
  | some s =>
    replaceFirst
      (fun t => decide (t.company_id = company ∧ t.fields.fiscal_year = row.fiscal_year))
      { s with fields := mergeFields s.fields row } db
  | none =>
    db ++ [{ company_id := company,
             fields := mergeFields { blankRow with fiscal_year := row.fiscal_year } row }]

/-- Embeds `upsert_financial_rows`: normalize the batch, then upsert row by row. -/
def upsert_financial_rows (db : List DbStmt) (company : String)
    (rows : List FinRow) : List DbStmt :=
  (upsertNormalize rows).foldl (fun d r => upsertOne d company r) db

/-- The statement columns written by
`app/services/financials.py::upsert_financial_statement_for_document`
(`UPSERT_FIELDS`, with `net_assets` renamed to `equity`). -/
structure DocStmt where
  fiscal_year : Option ℚ := none
  sales : Option ℚ := none
  operating_profit : Option ℚ := none
  ordinary_profit : Option ℚ := none
  net_income : Option ℚ := none
  total_assets : Option ℚ := none
  equity : Option ℚ := none
  deriving DecidableEq, Repr

/-- The field-copy loop of `upsert_financial_statement_for_document` (lines
40-43): a field is written whenever its key is *present* in the parsed dict
(`if field in parsed`), whatever its value; the parsed dict is modelled as an
association list whose values may themselves be `none`.  The targets of the
seven `UPSERT_FIELDS` are pairwise distinct, so the loop is a simultaneous
update. -/
def docMerge (s : DocStmt) (parsed : List (String × Option ℚ)) : DocStmt :=
  { fiscal_year := match parsed.lookup "fiscal_year" with
      | some v => v
      | none => s.fiscal_year,
    sales := match parsed.lookup "sales" with
      | some v => v
      | none => s.sales,
    operating_profit := match parsed.lookup "operating_profit" with
      | some v => v
      | none => s.operating_profit,
    ordinary_profit := match parsed.lookup "ordinary_profit" with
      | some v => v
      | none => s.ordinary_profit,
    net_income := match parsed.lookup "net_income" with
      | some v => v
      | none => s.net_income,
    total_assets := match parsed.lookup "total_assets" with
      | some v => v
      | none => s.total_assets,
    equity := match parsed.lookup "net_assets" with
      | some v => v
      | none => s.equity }

/-! ## PDF label loop (`financial_statement_service.py::parse_financial_pdf`)

The loop runs over the stripped, non-empty text lines pdfplumber extracted;
the embedding takes that line list as input. -/

/-- Is `n` a prefix of `h`? -/
def prefOf : List Char → List Char → Bool
  | [], _ => true
  | _ :: _, [] => false
  | a :: as, b :: bs => a = b && prefOf as bs

/-- Is `n` a contiguous substring of `h` (Python `n in h`)? -/
def infixOf (n : List Char) : List Char → Bool
  | [] => n.isEmpty
  | c :: t => prefOf n (c :: t) || infixOf n t

/-- Embeds `_normalize`: `re.sub(r"\s+", "", text)` — drop every whitespace
character. -/
def normChars (s : String) : List Char :=
  s.toList.filter (fun c => ¬ isPyWs c)

/-- Embeds `label_map` of `parse_financial_pdf`, in insertion order. -/
def serviceLabelMap : List (String × String) :=
  [("売上高", "sales"), ("営業利益", "operating_profit"),
   ("経常利益", "ordinary_profit"), ("当期純利益", "net_income"),
   ("減価償却費", "depreciation"), ("流動資産合計", "current_assets"),
   ("流動負債合計", "current_liabilities"), ("固定資産合計", "fixed_assets"),
   ("資産合計", "total_assets"), ("純資産合計", "equity"),
   ("株主資本合計", "equity"), ("負債合計", "total_liabilities"),
   ("短期借入金", "borrowings"), ("長期借入金", "borrowings")]

/-- One matched numeric token of the regex `[+-]?\d[\d,]*\.?\d*`, starting at
the head of `l` (whose first character after an optional sign is a digit):
greedy digits/commas, then an optional decimal point with greedy digits. -/
def grabNum (l : List Char) : List Char × List Char :=
  let a := l.takeWhile (fun c => c.isDigit || c = ',')
  let r := l.dropWhile (fun c => c.isDigit || c = ',')
  match r with
  | '.' :: r2 => (a ++ '.' :: r2.takeWhile Char.isDigit, r2.dropWhile Char.isDigit)
  | _ => (a, r)

/-- Embeds `re.findall(r"[+-]?\d[\d,]*\.?\d*", text)`: scan left to right, start a
match at a digit or at a sign directly followed by a digit.  Each step
consumes at least one character, so `fuel = length` makes the recursion
total without changing its result. -/
def fssTokensGo : ℕ → List Char → List (List Char)
  | 0, _ => []
  | _ + 1, [] => []
  | fuel + 1, c :: cs =>
    if c.isDigit then
      let (tok, rest) := grabNum (c :: cs)
      tok :: fssTokensGo fuel rest
    else if (c = '+' || c = '-') &&
        (match cs with | d :: _ => d.isDigit | [] => false) then
      let (tok, rest) := grabNum cs
      (c :: tok) :: fssTokensGo fuel rest
    else fssTokensGo fuel cs

/-- All numeric tokens of a line. -/
def fssTokens (l : List Char) : List (List Char) :=
  fssTokensGo l.length l

/-- Embeds `financial_statement_service.py::_parse_number`: last numeric token of
the line, commas removed, parsed with `Decimal` (which on these digit/point
tokens agrees with `pyFloat`); `""`/`"+"`/`"-"` give `None`. -/
def fss_parse_number (text : String) : Option ℚ :=
  match (fssTokens text.toList).getLast? with
  | none => none
  | some tok =>
    let token := tok.filter (fun c => c ≠ ',')
    if token = [] ∨ token = ['+'] ∨ token = ['-'] then none
    else pyFloat token

/-- Parser state: the metrics dict (looked up by `List.lookup`, insertion by
prepending) and the pending label-without-number field. -/
structure PState where
  data : List (String × ℚ)
  pending : Option String
  deriving DecidableEq, Repr

/-- Dict update used by the loop: `borrowings` accumulates
(`data["borrowings"] = data.get("borrowings", 0) + num`), every other field
is `setdefault` (first value wins). -/
def assignField (d : List (String × ℚ)) (key : String) (v : ℚ) : List (String × ℚ) :=
  if key = "borrowings" then
    ("borrowings", (d.lookup "borrowings").getD 0 + v) :: d
  else if (d.lookup key).isSome then d
  else (key, v) :: d

/-- The net-income exclusion: skip the `当期純利益` entry when the line is a
per-share or pre-tax variant. -/
def netIncomeExcluded (nrm : List Char) : Bool :=
  infixOf "一株当たりの当期純利益".toList nrm || infixOf "税引前当期純利益".toList nrm

/-- The `for jp_label, key in label_map.items()` loop with its `break`: the
first entry whose normalized label occurs in the normalized line (the labels
contain no whitespace, so normalizing them is the identity), honouring the
net-income exclusion's `continue`. -/
def findLabel (nrm : List Char) : Option (String × String) :=
  serviceLabelMap.find? (fun e =>
    if e.2 = "net_income" ∧ netIncomeExcluded nrm then false
    else infixOf (normChars e.1) nrm)

/-- Does any label of the map occur in the normalized line
(`any(lbl_norm in norm for lbl_norm in label_norm_map)`)? -/
def anyLabelIn (nrm : List Char) : Bool :=
  serviceLabelMap.any (fun e => infixOf (normChars e.1) nrm)

/-- One iteration of the line loop of `parse_financial_pdf` (lines 108-143):
match a label (first match wins via `break`); with a number on the same line
update the dict, otherwise remember the field as pending; on a label-free
numeric line, attribute the number to the pending field. -/
def lineStep (st : PState) (line : String) : PState :=
  let text := pyStrip line.toList
  if text.isEmpty then st
  else
    let nrm := (String.mk text).toList.filter (fun c => ¬ isPyWs c)
    let num := fss_parse_number (String.mk text)
    match findLabel nrm with
    | some e =>
      match num with
      | some v => { st with data := assignField st.data e.2 v }
      | none => { st with pending := some e.2 }
    | none =>
      match st.pending, num with
      | some pk, some v =>
        if anyLabelIn nrm then st
        else { data := assignField st.data pk v, pending := none }
      | _, _ => st

/-- The epilogue of `parse_financial_pdf`: mirror `borrowings` into
`interest_bearing_debt` when absent. -/
def finalizeBorrowings (d : List (String × ℚ)) : List (String × ℚ) :=
  match d.lookup "borrowings" with
  | some b =>
    if (d.lookup "interest_bearing_debt").isSome then d
    else ("interest_bearing_debt", b) :: d
  | none => d

/-- Embeds `parse_financial_pdf` on the extracted text lines. -/
def parse_financial_pdf (lines : List String) : List (String × ℚ) :=
  finalizeBorrowings (lines.foldl lineStep { data := [], pending := none }).data

/-! ## `financial_statement_parser.py::_parse_metrics` -/

/-- Embeds `LABEL_MAP` of `financial_statement_parser.py`, in insertion order. -/
def parserLabelMap : List (String × String) :=
  [("売上高", "sales"), ("売上金額", "sales"),
   ("営業利益", "operating_profit"), ("営業損益", "operating_profit"),
   ("経常利益", "ordinary_profit"), ("経常損益", "ordinary_profit"),
   ("当期純利益", "net_income"), ("当期利益", "net_income"),
   ("減価償却費", "depreciation"), ("人件費", "labor_cost"),
   ("流動資産合計", "current_assets"), ("流動資産", "current_assets"),
   ("流動負債合計", "current_liabilities"), ("流動負債", "current_liabilities"),
   ("固定資産合計", "fixed_assets"), ("固定資産", "fixed_assets"),
   ("総資産", "total_assets"), ("資産合計", "total_assets"),
   ("純資産", "equity"), ("自己資本", "equity"),
   ("負債合計", "total_liabilities"), ("従業員数", "employees")]

/-- Embeds `re.findall(r"-?\d+", line)`: maximal digit runs, optionally preceded by
a minus sign.  Fuel as in `fssTokensGo`. -/
def intTokensGo : ℕ → List Char → List (List Char)
  | 0, _ => []
  | _ + 1, [] => []
  | fuel + 1, c :: cs =>
    if c.isDigit then
      ((c :: cs).takeWhile Char.isDigit) :: intTokensGo fuel ((c :: cs).dropWhile Char.isDigit)
    else if c = '-' && (match cs with | d :: _ => d.isDigit | [] => false) then
      ('-' :: cs.takeWhile Char.isDigit) :: intTokensGo fuel (cs.dropWhile Char.isDigit)
    else intTokensGo fuel cs

/-- Signed integer value of a `-?\d+` token. -/
def intOfTok (tok : List Char) : ℤ :=
  match tok with
  | '-' :: ds => -(natOfDigits ds : ℤ)
  | ds => (natOfDigits ds : ℤ)

/-- Embeds `_find_last_int_on_line`: `int` of the last `-?\d+` match, if any. -/
def _find_last_int_on_line (line : String) : Option ℤ :=
  match (intTokensGo line.toList.length line.toList).getLast? with
  | none => none
  | some tok => some (intOfTok tok)

/-- Embeds `_parse_metrics` (lines 104-113): for every line and every label entry
(no `break` — all matching entries fire), if the label occurs in the raw
line and the line has a last integer, overwrite `metrics[field]` with
`val * multiplier`. -/
def _parse_metrics (lines : List String) (multiplier : ℤ) : List (String × ℤ) :=
  lines.foldl
    (fun metrics line =>
      parserLabelMap.foldl
        (fun m e =>
          if infixOf e.1.toList line.toList then
            match _find_last_int_on_line line with
            | none => m
            | some val => (e.2, val * multiplier) :: m
          else m)
        metrics)
    []

/-! # Theorems -/

set_option maxRecDepth 4000

/-- C8: the numeric parse functions of both PDF parsers satisfy the
negative-number conventions — `parse("△1,234") == -1234`,
`parse("(1,234)") == -1234`, `parse("1,234") == 1234` — and return `None`
(never raising) on empty, whitespace-only, sign-only and non-numeric
tokens. -/
theorem numeric_token_conventions :
    _to_number "△1,234" = some (-1234) ∧
    _to_number "(1,234)" = some (-1234) ∧
    _to_number "1,234" = some 1234 ∧
    _to_number "" = none ∧
    _to_number "  " = none ∧
    _to_number "-" = none ∧
    _to_number "+" = none ∧
    _to_number "△" = none ∧
    _to_number "▲" = none ∧
    _to_number "(" = none ∧
    _to_number "()" = none ∧
    _to_number "abc" = none ∧
    _to_number "売上高" = none ∧
    _parse_number "△1,234" = some (-1234) ∧
    _parse_number "(1,234)" = some (-1234) ∧
    _parse_number "1,234" = some 1234 ∧
    _parse_number "" = none ∧
    _parse_number "-" = none ∧
    _parse_number "abc" = none := by
  with_unfolding_all decide

/-- C1 counterexample: the claim says a `None` raw ratio always yields
`score = None` ("not enough data"); but `score_equity_ratio(None)` is the
neutral score `3`, not `None`. -/
theorem equity_score_of_none_is_neutral_not_none :
    score_equity_ratio none ≠ none ∧ score_equity_ratio none = some 3 ∧
    calc_equity_ratio_pct none none = none ∧
    score_equity_ratio (calc_equity_ratio_pct none none) ≠ none := by
  refine ⟨by decide, rfl, rfl, by decide⟩

/-- C1 (amended): a `None` raw value yields `score = None` only on the
sales-growth and profit-margin axes; the soundness, working-capital and
equity-ratio axes map `None` to the neutral score `3`.  A period with no
`total_assets` and no `equity` yields `equity_ratio = None` and the neutral
score `3`, which differs from the worst bucket's score `1` — the period is
distinguishable from a worst-bucket period by its neutral score and `None`
raw value, not by a `None` score. -/
theorem score_none_handling_per_axis :
    score_sales_growth none = none ∧
    score_profit_margin none = none ∧
    (∀ b e : Option ℚ, score_debt_years none b e = some 3) ∧
    score_working_capital_months none = some 3 ∧
    score_equity_ratio none = some 3 ∧
    calc_equity_ratio_pct none none = none ∧
    score_equity_ratio (calc_equity_ratio_pct none none) = some 3 ∧
    score_equity_ratio (some (-5)) = some 1 ∧
    score_equity_ratio (calc_equity_ratio_pct none none) ≠
      score_equity_ratio (some (-5)) := by
  refine ⟨rfl, rfl, fun b e => rfl, rfl, rfl, rfl, rfl, ?_, ?_⟩
  · norm_num [score_equity_ratio]
  · norm_num [score_equity_ratio, calc_equity_ratio_pct]

/-- C3 counterexample: with no interest-bearing debt the soundness ratio is
`None` (as claimed), but the score is the neutral `3`, not the maximal `5`
the claim asserts. -/
theorem debtfree_scores_neutral_not_max :
    calc_soundness_years none (some 1) (some 1) (some 1) = none ∧
    score_debt_years (calc_soundness_years none (some 1) (some 1) (some 1))
      none (some 2) = some 3 ∧
    score_debt_years (calc_soundness_years none (some 1) (some 1) (some 1))
      none (some 2) ≠ some 5 := by
  refine ⟨rfl, rfl, by decide⟩

/-- C3 (amended): when interest-bearing debt is absent or `≤ 0` the soundness
ratio is `None` (ratio not applicable), and `score_debt_years` then gives the
debt-free case the neutral score `3` — not a maximal score. -/
theorem soundness_debtfree_amended :
    (∀ op dep ni : Option ℚ, calc_soundness_years none op dep ni = none) ∧
    (∀ (d : ℚ) (op dep ni : Option ℚ), d ≤ 0 →
      calc_soundness_years (some d) op dep ni = none) ∧
    (∀ b e : Option ℚ, score_debt_years none b e = some 3) := by
  refine ⟨fun op dep ni => rfl, fun d op dep ni h => ?_, fun b e => rfl⟩
  simp [calc_soundness_years, if_pos h]

/-- C3 witness. -/
theorem soundness_debtfree_amended_witness :
    calc_soundness_years (some 0) (some 1) (some 1) (some 1) = none :=
  soundness_debtfree_amended.2.1 0 (some 1) (some 1) (some 1) le_rfl

/-- C2: every ratio calculator is null-propagating and division-safe —
a missing required input or a non-positive required denominator makes the
ratio `None`, and a ratio is ever `some` only when its denominator was
strictly positive (so no division by zero, infinity or NaN can arise; the
embedded functions are total by construction). -/
theorem ratio_null_propagation :
    (∀ ps, calc_sales_sustainability none ps = none) ∧
    (∀ cs, calc_sales_sustainability cs none = none) ∧
    (∀ cs (p : ℚ), p ≤ 0 → calc_sales_sustainability cs (some p) = none) ∧
    (∀ cs (p v : ℚ), calc_sales_sustainability cs (some p) = some v → 0 < p) ∧
    (∀ s, calc_profitability none s = none) ∧
    (∀ op, calc_profitability op none = none) ∧
    (∀ op (s : ℚ), s ≤ 0 → calc_profitability op (some s) = none) ∧
    (∀ op (s v : ℚ), calc_profitability op (some s) = some v → 0 < s) ∧
    (∀ op dep ni, calc_soundness_years none op dep ni = none) ∧
    (∀ (d : ℚ) op dep ni, d ≤ 0 → calc_soundness_years (some d) op dep ni = none) ∧
    (∀ (d : ℚ) op dep ni, ni.getD 0 + dep.getD 0 ≤ 0 →
      calc_soundness_years (some d) op dep ni = none) ∧
    (∀ debt op dep ni (v : ℚ), calc_soundness_years debt op dep ni = some v →
      0 < ni.getD 0 + dep.getD 0) ∧
    (∀ r i p, calc_working_capital_months r i p none = none) ∧
    (∀ r i p (s : ℚ), s ≤ 0 → calc_working_capital_months r i p (some s) = none) ∧
    (∀ r i p (s v : ℚ), calc_working_capital_months r i p (some s) = some v → 0 < s) ∧
    (∀ t, calc_equity_ratio_pct none t = none) ∧
    (∀ e, calc_equity_ratio_pct e none = none) ∧
    (∀ e (t : ℚ), t ≤ 0 → calc_equity_ratio_pct e (some t) = none) ∧
    (∀ e (t v : ℚ), calc_equity_ratio_pct e (some t) = some v → 0 < t) ∧
    (∀ n, _safe_div n none = none) ∧
    (∀ n, _safe_div n (some 0) = none) := by
  refine ⟨fun ps => rfl, fun cs => by cases cs <;> rfl,
    fun cs p h => by cases cs <;> simp [calc_sales_sustainability, if_pos h],
    fun cs p v hv => ?_,
    fun s => rfl, fun op => by cases op <;> rfl,
    fun op s h => by cases op <;> simp [calc_profitability, if_pos h],
    fun op s v hv => ?_,
    fun op dep ni => rfl,
    fun d op dep ni h => by simp [calc_soundness_years, if_pos h],
    fun d op dep ni h => ?_,
    fun debt op dep ni v hv => ?_,
    fun r i p => rfl,
    fun r i p s h => by simp [calc_working_capital_months, if_pos h],
    fun r i p s v hv => ?_,
    fun t => rfl, fun e => by cases e <;> rfl,
    fun e t h => by cases e <;> simp [calc_equity_ratio_pct, if_pos h],
    fun e t v hv => ?_,
    fun n => by cases n <;> rfl, fun n => by cases n <;> simp [_safe_div]⟩
  · cases cs with
    | none => simp [calc_sales_sustainability] at hv
    | some c =>
      by_contra hle
      simp [calc_sales_sustainability, if_pos (le_of_not_lt hle)] at hv
  · cases op with
    | none => simp [calc_profitability] at hv
    | some o =>
      by_contra hle
      simp [calc_profitability, if_pos (le_of_not_lt hle)] at hv
  · by_cases hd : d ≤ 0
    · simp [calc_soundness_years, if_pos hd]
    · simp [calc_soundness_years, if_neg hd, if_pos h]
  · cases debt with
    | none => simp [calc_soundness_years] at hv
    | some d =>
      by_contra hle
      by_cases hd : d ≤ 0
      · simp [calc_soundness_years, if_pos hd] at hv
      · simp [calc_soundness_years, if_neg hd, if_pos (le_of_not_lt hle)] at hv
  · by_contra hle
    simp [calc_working_capital_months, if_pos (le_of_not_lt hle)] at hv
  · cases e with
    | none => simp [calc_equity_ratio_pct] at hv
    | some e0 =>
      by_contra hle
      simp [calc_equity_ratio_pct, if_pos (le_of_not_lt hle)] at hv

/-- C2 witness. -/
theorem ratio_null_propagation_witness :
    calc_sales_sustainability (some 5) (some 0) = none ∧
    calc_profitability (some 5) (some 0) = none ∧
    calc_soundness_years (some 0) (some 1) (some 1) (some 1) = none ∧
    calc_soundness_years (some 5) (some 1) (some 0) (some 0) = none ∧
    calc_working_capital_months (some 1) (some 1) (some 1) (some 0) = none ∧
    calc_equity_ratio_pct (some 5) (some 0) = none ∧
    0 < (2 : ℚ) ∧ 0 < (1 : ℚ) + 1 :=
  ⟨ratio_null_propagation.2.2.1 (some 5) 0 le_rfl,
   ratio_null_propagation.2.2.2.2.2.2.1 (some 5) 0 le_rfl,
   ratio_null_propagation.2.2.2.2.2.2.2.2.2.1 0 (some 1) (some 1) (some 1) le_rfl,
   ratio_null_propagation.2.2.2.2.2.2.2.2.2.2.1 5 (some 1) (some 0) (some 0)
     (by norm_num),
   ratio_null_propagation.2.2.2.2.2.2.2.2.2.2.2.2.2.1 (some 1) (some 1) (some 1) 0
     le_rfl,
   ratio_null_propagation.2.2.2.2.2.2.2.2.2.2.2.2.2.2.2.2.2.1 (some 5) 0 le_rfl,
   ratio_null_propagation.2.2.2.1 (some 5) 2 150 (by norm_num [calc_sales_sustainability]),
   ratio_null_propagation.2.2.2.2.2.2.2.2.2.2.2.1 (some 5) (some 9) (some 1) (some 1)
     (5 / 2) (by norm_num [calc_soundness_years, _safe_div])⟩

/-- Labels of the KPI list are the axes, in order. -/
theorem compute_kpis_labels (stmt : FinRow) (prev : Option ℚ) :
    (_compute_kpis stmt prev).map (fun k => k.label) = AXES := rfl

/-- C10: every radar period emits exactly one score per axis in axis order;
axes whose score is `None` (as `score_sales_growth`/`score_profit_margin`
produce on missing data) appear as `0.0` in `scores`, while the parallel
`kpis` entries keep `score = None`. -/
theorem radar_scores_axis_order :
    ∀ (financials : List FinRow) (p : RadarPeriod), p ∈ _build_radar financials →
      p.kpis.map (fun k => k.label) = AXES ∧
      p.scores = p.kpis.map (fun k => match k.score with
        | some s => (s : ℚ)
        | none => 0) ∧
      p.scores.length = AXES.length := by
  have go : ∀ (l : List FinRow) (idx : ℕ) (p : RadarPeriod), p ∈ buildRadarGo idx l →
      p.kpis.map (fun k => k.label) = AXES ∧
      p.scores = p.kpis.map (fun k => match k.score with
        | some s => (s : ℚ)
        | none => 0) ∧
      p.scores.length = AXES.length := by
    intro l
    induction l with
    | nil => intro idx p h; simp [buildRadarGo] at h
    | cons s rest ih =>
      intro idx p h
      simp only [buildRadarGo] at h
      rcases List.mem_cons.mp h with rfl | h2
      · exact ⟨rfl, rfl, rfl⟩
      · exact ih (idx + 1) p h2
  exact fun fs p h => go fs 0 p h

/-- C10 witness: the single period of a blank statement, where the first two
axes score `None` (rendered `0` in `scores`) and the rest are neutral `3`. -/
theorem radar_scores_axis_order_witness :
    ((_build_radar [blankRow]).headD ⟨"", [], [], []⟩).kpis.map (fun k => k.label) = AXES ∧
    ((_build_radar [blankRow]).headD ⟨"", [], [], []⟩).scores =
      ((_build_radar [blankRow]).headD ⟨"", [], [], []⟩).kpis.map
        (fun k => match k.score with
          | some s => (s : ℚ)
          | none => 0) ∧
    ((_build_radar [blankRow]).headD ⟨"", [], [], []⟩).scores.length = AXES.length :=
  radar_scores_axis_order [blankRow]
    ((_build_radar [blankRow]).headD ⟨"", [], [], []⟩) (by decide)

/-- C9 counterexample: an entry with every component absent still gains
`current_assets = 0` (the claim says it gains no derived value), and
`current_liabilities` is set from `payables` even when `total_liabilities`
is present (the claim says only when `total_liabilities` is absent). -/
theorem derive_counterexample :
    (deriveEntry blankRow).current_assets = some 0 ∧
    (deriveEntry blankRow).current_assets ≠ none ∧
    (deriveEntry
      { blankRow with payables := some 5, total_liabilities := some 100 }).current_liabilities
      = some 5 := by
  with_unfolding_all decide

/-- C9 (amended): whenever `current_assets` is absent it is derived as
`cash + receivables + inventory` with absent components read as 0 — including
when every component is absent, which yields `current_assets = 0`; whenever
`current_liabilities` is absent it is set to `payables` when `payables` is
present and non-zero (else left absent), regardless of `total_liabilities`;
separately `total_liabilities := payables` when `total_liabilities` is absent
and `payables` non-zero. -/
theorem derive_amended (e : FinRow) :
    ((deriveEntry e).current_assets = match e.current_assets with
      | some v => some v
      | none => some (e.cash_and_deposits.getD 0 + e.receivables.getD 0 +
          e.inventory.getD 0)) ∧
    ((deriveEntry e).current_liabilities = match e.current_liabilities with
      | some v => some v
      | none =>
        if e.payables.getD 0 ≠ 0 then some (e.payables.getD 0) else none) ∧
    ((deriveEntry e).total_liabilities =
      if e.total_liabilities = none ∧ e.payables.getD 0 ≠ 0 then
        some (e.payables.getD 0)
      else e.total_liabilities) ∧
    (e.current_assets = none ∧ e.cash_and_deposits = none ∧
      e.receivables = none ∧ e.inventory = none →
      (deriveEntry e).current_assets = some 0) := by
  refine ⟨?_, ?_, rfl, ?_⟩
  · cases h : e.current_assets <;> simp [deriveEntry, h]
  · cases h : e.current_liabilities <;> simp [deriveEntry, h]
  · rintro ⟨h1, h2, h3, h4⟩
    simp [deriveEntry, h1, h2, h3, h4]

/-- C9 witness. -/
theorem derive_amended_witness :
    (deriveEntry blankRow).current_assets = some 0 :=
  (derive_amended blankRow).2.2.2 ⟨rfl, rfl, rfl, rfl⟩

/-- Backfill fills an absent `previous_sales` at index `i` from the sales at
index `i + 1`. -/
theorem backfill_getD_eq : ∀ (l : List FinRow) (i : ℕ), i + 1 < l.length →
    (l.getD i blankRow).previous_sales = none →
    (backfill l).getD i blankRow =
      { l.getD i blankRow with previous_sales := (l.getD (i + 1) blankRow).sales } := by
  intro l
  induction l with
  | nil => intro i h _; simp at h
  | cons r rest ih =>
    cases rest with
    | nil => intro i h _; simp at h
    | cons s t =>
      intro i h hps
      cases i with
      | zero =>
        simp only [List.getD_cons_zero] at hps ⊢
        simp [backfill, hps]
      | succ j =>
        simp only [List.getD_cons_succ] at hps ⊢
        simp only [backfill, List.getD_cons_succ]
        exact ih j (by simpa using h) hps

/-- C4: after the descending sort, every record with an absent
`previous_sales` and a successor receives the successor's `sales`; on the
2024/2023/2022 example the 2024 record receives `13_600_000` and the 2023
record `12_000_000` (the 2022 record, having no successor, stays absent). -/
theorem backfill_previous_sales :
    (∀ (l : List FinRow) (i : ℕ), i + 1 < l.length →
      (l.getD i blankRow).previous_sales = none →
      (backfill l).getD i blankRow =
        { l.getD i blankRow with previous_sales := (l.getD (i + 1) blankRow).sales }) ∧
    ((upsertNormalize
        [{ fiscal_year := some 2024, sales := some 15000000 },
         { fiscal_year := some 2023, sales := some 13600000 },
         { fiscal_year := some 2022, sales := some 12000000 }]).map
        (fun r => (r.fiscal_year, r.sales, r.previous_sales)) =
      [(some 2024, some 15000000, some 13600000),
       (some 2023, some 13600000, some 12000000),
       (some 2022, some 12000000, none)]) :=
  ⟨backfill_getD_eq, by decide⟩

/-- C4 witness. -/
theorem backfill_previous_sales_witness :
    (backfill [blankRow, { blankRow with sales := some 7 }]).getD 0 blankRow =
      { blankRow with previous_sales := some 7 } :=
  backfill_previous_sales.1 [blankRow, { blankRow with sales := some 7 }] 0
    (by decide) (by decide)

/-- Keys found by `List.lookup` are bindings of the list. -/
theorem mem_of_lookup_eq_some {α β : Type} [BEq α] [LawfulBEq α]
    {l : List (α × β)} {k : α} {v : β} (h : l.lookup k = some v) : (k, v) ∈ l := by
  induction l with
  | nil => simp [List.lookup] at h
  | cons kv rest ih =>
    obtain ⟨a, b⟩ := kv
    rw [List.lookup] at h
    by_cases hk : k == a
    · rw [hk] at h
      cases h
      have hka : k = a := eq_of_beq hk
      subst hka
      exact List.mem_cons_self _ _
    · rw [Bool.not_eq_true] at hk
      rw [hk] at h
      exact List.mem_cons_of_mem _ (ih h)

/-- An `assignField` update never disturbs an already-present non-additive
field: `setdefault` keeps the first value, and the `borrowings` accumulator
touches only `borrowings`. -/
theorem lookup_assignField_preserve (d : List (String × ℚ)) (key k : String)
    (v w : ℚ) (hk : key ≠ "borrowings") (h : d.lookup key = some v) :
    (assignField d k w).lookup key = some v := by
  unfold assignField
  by_cases hb : k = "borrowings"
  · subst hb
    simp only [if_pos rfl, List.lookup]
    have : (key == "borrowings") = false := beq_eq_false_iff_ne.mpr hk
    rw [this]
    exact h
  · rw [if_neg hb]
    by_cases hs : (d.lookup k).isSome
    · rw [if_pos hs]; exact h
    · rw [if_neg hs]
      by_cases hk2 : k = key
      · subst hk2; rw [h] at hs; simp at hs
      · simp only [List.lookup]
        have : (key == k) = false := beq_eq_false_iff_ne.mpr (Ne.symm hk2)
        rw [this]
        exact h

/-- Each line step either leaves the dict unchanged or applies one
`assignField` update to it. -/
theorem lineStep_data_cases (st : PState) (line : String) :
    (lineStep st line).data = st.data ∨
    ∃ k w, (lineStep st line).data = assignField st.data k w := by
  rw [lineStep.eq_def]
  dsimp only
  split
  · exact Or.inl rfl
  · split
    · split
      · exact Or.inr ⟨_, _, rfl⟩
      · exact Or.inl rfl
    · split
      · split
        · exact Or.inl rfl
        · exact Or.inr ⟨_, _, rfl⟩
      · exact Or.inl rfl

/-- C7 counterexample: in `_parse_metrics` a label matching two lines keeps
the LAST match's value, contradicting the claim's "first match wins" for the
cited symbol. -/
theorem parse_metrics_last_match_counterexample :
    (_parse_metrics ["売上高 100", "売上高 200"] 1).lookup "sales" = some 200 ∧
    (_parse_metrics ["売上高 100", "売上高 200"] 1).lookup "sales" ≠ some 100 := by
  constructor
  · decide
  · decide

/-- C7 (amended): multi-match resolution is deterministic and total, but the
two cited parsers differ: in `financial_statement_service.parse_financial_pdf`
an assigned overwrite field is never overwritten again (first match wins via
`setdefault`) and the additive `borrowings` field sums short- and long-term
borrowing lines (mirrored into `interest_bearing_debt`); in
`financial_statement_parser._parse_metrics` every match overwrites, so the
last match wins. -/
theorem label_multimatch_resolution :
    (∀ (lines : List String) (st : PState) (key : String) (v : ℚ),
      key ≠ "borrowings" → st.data.lookup key = some v →
      ((lines.foldl lineStep st).data).lookup key = some v) ∧
    ((parse_financial_pdf ["売上高 100", "売上高 200"]).lookup "sales"
      = some 100) ∧
    ((parse_financial_pdf ["短期借入金 100", "長期借入金 200"]).lookup "borrowings"
      = some 300) ∧
    ((parse_financial_pdf ["短期借入金 100", "長期借入金 200"]).lookup
      "interest_bearing_debt" = some 300) ∧
    ((_parse_metrics ["売上高 100", "売上高 200"] 1).lookup "sales" = some 200) := by
  refine ⟨?_, ?_, ?_, ?_, by decide⟩
  · intro lines
    induction lines with
    | nil => intro st key v hk h; exact h
    | cons line rest ih =>
      intro st key v hk h
      apply ih (lineStep st line) key v hk
      rcases lineStep_data_cases st line with hcase | ⟨k, w, hcase⟩
      · rw [hcase]; exact h
      · rw [hcase]; exact lookup_assignField_preserve st.data key k v w hk h
  · with_unfolding_all decide
  · with_unfolding_all decide
  · with_unfolding_all decide

/-- C7 witness. -/
theorem label_multimatch_resolution_witness :
    ((["売上高 200"].foldl lineStep
      { data := [("sales", 100)], pending := none }).data).lookup "sales"
      = some 100 :=
  label_multimatch_resolution.1 ["売上高 200"]
    { data := [("sales", 100)], pending := none } "sales" 100 (by decide) (by decide)

/-- C6: upserting overwrites only with non-null incoming fields.  For the
row upsert (`upsert_financial_rows`): every `FINANCIAL_FIELDS` field whose
incoming value is `none` leaves the stored value unchanged, and a missing
`(company_id, fiscal_year)` match appends a freshly created record.  For the
document upsert (`upsert_financial_statement_for_document`): a key absent
from the parsed dict leaves the field unchanged, and — since its producer
(`pdf_financials.parse_financial_pdf`) only ever stores non-`None` values —
under that invariant no stored non-`None` field ever becomes `None`. -/
theorem upsert_non_null_overwrite :
    (∀ s r : FinRow,
      (mergeFields s r).fiscal_year = s.fiscal_year ∧
      (r.sales = none → (mergeFields s r).sales = s.sales) ∧
      (r.operating_profit = none →
        (mergeFields s r).operating_profit = s.operating_profit) ∧
      (r.ordinary_profit = none →
        (mergeFields s r).ordinary_profit = s.ordinary_profit) ∧
      (r.net_income = none → (mergeFields s r).net_income = s.net_income) ∧
      (r.depreciation = none → (mergeFields s r).depreciation = s.depreciation) ∧
      (r.labor_cost = none → (mergeFields s r).labor_cost = s.labor_cost) ∧
      (r.current_assets = none →
        (mergeFields s r).current_assets = s.current_assets) ∧
      (r.current_liabilities = none →
        (mergeFields s r).current_liabilities = s.current_liabilities) ∧
      (r.fixed_assets = none → (mergeFields s r).fixed_assets = s.fixed_assets) ∧
      (r.total_assets = none → (mergeFields s r).total_assets = s.total_assets) ∧
      (r.equity = none → (mergeFields s r).equity = s.equity) ∧
      (r.total_liabilities = none →
        (mergeFields s r).total_liabilities = s.total_liabilities) ∧
      (r.employees = none → (mergeFields s r).employees = s.employees) ∧
      (r.cash_and_deposits = none →
        (mergeFields s r).cash_and_deposits = s.cash_and_deposits) ∧
      (r.receivables = none → (mergeFields s r).receivables = s.receivables) ∧
      (r.inventory = none → (mergeFields s r).inventory = s.inventory) ∧
      (r.payables = none → (mergeFields s r).payables = s.payables) ∧
      (r.borrowings = none → (mergeFields s r).borrowings = s.borrowings) ∧
      (r.interest_bearing_debt = none →
        (mergeFields s r).interest_bearing_debt = s.interest_bearing_debt) ∧
      (r.previous_sales = none →
        (mergeFields s r).previous_sales = s.previous_sales)) ∧
    (∀ (db : List DbStmt) (company : String) (row : FinRow),
      findStmt db company row.fiscal_year = none →
      upsertOne db company row =
        db ++ [{ company_id := company,
                 fields := mergeFields { blankRow with fiscal_year := row.fiscal_year }
                   row }]) ∧
    (∀ (s : DocStmt) (parsed : List (String × Option ℚ)),
      (parsed.lookup "fiscal_year" = none →
        (docMerge s parsed).fiscal_year = s.fiscal_year) ∧
      (parsed.lookup "sales" = none → (docMerge s parsed).sales = s.sales) ∧
      (parsed.lookup "operating_profit" = none →
        (docMerge s parsed).operating_profit = s.operating_profit) ∧
      (parsed.lookup "ordinary_profit" = none →
        (docMerge s parsed).ordinary_profit = s.ordinary_profit) ∧
      (parsed.lookup "net_income" = none →
        (docMerge s parsed).net_income = s.net_income) ∧
      (parsed.lookup "total_assets" = none →
        (docMerge s parsed).total_assets = s.total_assets) ∧
      (parsed.lookup "net_assets" = none → (docMerge s parsed).equity = s.equity)) ∧
    (∀ (s : DocStmt) (parsed : List (String × Option ℚ)),
      (∀ kv ∈ parsed, kv.2 ≠ none) →
      (s.fiscal_year ≠ none → (docMerge s parsed).fiscal_year ≠ none) ∧
      (s.sales ≠ none → (docMerge s parsed).sales ≠ none) ∧
      (s.operating_profit ≠ none → (docMerge s parsed).operating_profit ≠ none) ∧
      (s.ordinary_profit ≠ none → (docMerge s parsed).ordinary_profit ≠ none) ∧
      (s.net_income ≠ none → (docMerge s parsed).net_income ≠ none) ∧
      (s.total_assets ≠ none → (docMerge s parsed).total_assets ≠ none) ∧
      (s.equity ≠ none → (docMerge s parsed).equity ≠ none)) := by
  refine ⟨?_, ?_, ?_, ?_⟩
  · intro s r
    refine ⟨rfl, ?_, ?_, ?_, ?_, ?_, ?_, ?_, ?_, ?_, ?_, ?_, ?_, ?_, ?_, ?_, ?_,
      ?_, ?_, ?_, ?_⟩ <;>
      (intro h; simp [mergeFields, h, Option.or])
  · intro db company row h
    unfold upsertOne
    rw [h]
  · intro s parsed
    refine ⟨?_, ?_, ?_, ?_, ?_, ?_, ?_⟩ <;> (intro h; simp [docMerge, h])
  · intro s parsed hvals
    have hfield : ∀ (key : String) (cur : Option ℚ), cur ≠ none →
        (match parsed.lookup key with
          | some v => v
          | none => cur) ≠ none := by
      intro key cur hcur
      cases hl : parsed.lookup key with
      | none => simpa using hcur
      | some v =>
        have := hvals (key, v) (mem_of_lookup_eq_some hl)
        simpa using this
    exact ⟨hfield "fiscal_year" s.fiscal_year, hfield "sales" s.sales,
      hfield "operating_profit" s.operating_profit,
      hfield "ordinary_profit" s.ordinary_profit,
      hfield "net_income" s.net_income, hfield "total_assets" s.total_assets,
      hfield "net_assets" s.equity⟩

/-- C6 witness. -/
theorem upsert_non_null_overwrite_witness :
    (mergeFields { blankRow with sales := some 9 } blankRow).sales = some 9 ∧
    upsertOne [] "c" { blankRow with fiscal_year := some 2024 } =
      [{ company_id := "c",
         fields := mergeFields { blankRow with fiscal_year := some 2024 }
           { blankRow with fiscal_year := some 2024 } }] ∧
    (docMerge { sales := some 9 } [("net_income", some 3)]).sales = some 9 ∧
    (docMerge { sales := some 9 } [("net_income", some 3)]).sales ≠ none :=
  ⟨(upsert_non_null_overwrite.1 { blankRow with sales := some 9 } blankRow).2.1 rfl,
   upsert_non_null_overwrite.2.1 [] "c" { blankRow with fiscal_year := some 2024 } rfl,
   (upsert_non_null_overwrite.2.2.1 { sales := some 9 } [("net_income", some 3)]).2.1
     (by decide),
   ((upsert_non_null_overwrite.2.2.2 { sales := some 9 } [("net_income", some 3)])
     (by decide)).2.1 (by decide)⟩

/-- Re-deriving a derived entry changes nothing, even after its
`previous_sales` was rewritten ( derivation neither reads nor writes
`previous_sales`). -/
theorem deriveEntry_stable (e : FinRow) (x : Option ℚ) :
    deriveEntry { deriveEntry e with previous_sales := x } =
      { deriveEntry e with previous_sales := x } := by
  obtain ⟨fy, sa, op, orp, ni, de, lc, ca, cl, fa, ta, eqy, tl, em, cd, re, inv, pa,
    bo, ib, ps⟩ := e
  by_cases hp : (pa.getD 0) = 0 <;> cases ca <;> cases cl <;> cases tl <;>
    simp [deriveEntry, hp]

/-- Mapping a `previous_sales`-blind projection commutes with backfill. -/
theorem backfill_map_eq {α : Type} (f : FinRow → α)
    (hf : ∀ r x, f { r with previous_sales := x } = f r) :
    ∀ l : List FinRow, (backfill l).map f = l.map f
  | [] => rfl
  | [_] => rfl
  | r :: s :: t => by
    simp only [backfill, List.map, backfill_map_eq f hf (s :: t)]
    congr 1
    split
    · exact hf r s.sales
    · rfl

/-- Sortedness depends only on the keys. -/
theorem sorted_of_map_key {l₁ l₂ : List FinRow}
    (h : l₁.map keyOf = l₂.map keyOf) (hs : List.Sorted rdesc l₁) :
    List.Sorted rdesc l₂ := by
  have h1 : List.Pairwise (fun a b : ℤ => b ≤ a) (l₁.map keyOf) := by
    rw [List.pairwise_map]
    exact hs
  rw [h, List.pairwise_map] at h1
  exact h1

/-- A sorted list is left unchanged by the sort. -/
theorem sortDesc_eq_of_sorted {l : List FinRow} (h : List.Sorted rdesc l) :
    sortDesc l = l :=
  List.Sorted.insertionSort_eq h

/-- Backfilling twice is backfilling once (the second pass rewrites only
still-absent `previous_sales` with the same absent successor sales). -/
theorem backfill_idem : ∀ l : List FinRow, backfill (backfill l) = backfill l
  | [] => rfl
  | [_] => rfl
  | r :: s :: t => by
    obtain ⟨v, rest', hv, hvs⟩ :
        ∃ v rest', backfill (s :: t) = v :: rest' ∧ v.sales = s.sales := by
      cases t with
      | nil => exact ⟨s, [], rfl, rfl⟩
      | cons a t2 =>
        refine ⟨_, _, rfl, ?_⟩
        split <;> rfl
    simp only [backfill, hv]
    rw [← hv, backfill_idem (s :: t), hv]
    congr 1
    rw [hvs]
    by_cases h : r.previous_sales = none
    · rw [if_pos h]
      split <;> rfl
    · rw [if_neg h, if_neg h]

/-- Every element of a backfilled list is an element of the input with (at
most) its `previous_sales` rewritten. -/
theorem mem_backfill : ∀ {l : List FinRow} {x : FinRow}, x ∈ backfill l →
    ∃ y ∈ l, ∃ p, x = { y with previous_sales := p }
  | [], x, h => by simp [backfill] at h
  | [r], x, h => by
    simp [backfill] at h
    exact ⟨r, by simp, r.previous_sales, by rw [h]⟩
  | r :: s :: t, x, h => by
    rw [backfill, List.mem_cons] at h
    rcases h with rfl | h2
    · refine ⟨r, List.mem_cons_self _ _,
        (if r.previous_sales = none then { r with previous_sales := s.sales }
          else r).previous_sales, ?_⟩
      split <;> rfl
    · obtain ⟨y, hy, p, hp⟩ := mem_backfill h2
      exact ⟨y, List.mem_cons_of_mem _ hy, p, hp⟩

/-- A list whose elements are all fixed by `f` maps to itself. -/
theorem map_eq_self_of_fixed {α : Type} {f : α → α} :
    ∀ {l : List α}, (∀ x ∈ l, f x = x) → l.map f = l
  | [], _ => rfl
  | a :: t, h => by
    rw [List.map, h a (List.mem_cons_self _ _),
      map_eq_self_of_fixed (fun x hx => h x (List.mem_cons_of_mem _ hx))]

/-- Every element of an aligned batch is a derived entry (so re-deriving
fixes it) and carries a fiscal year. -/
theorem align_mem_spec (rows : List FinRow) :
    ∀ x ∈ align rows, deriveEntry x = x ∧ x.fiscal_year.isSome := by
  intro x hx
  obtain ⟨y, hy, p, rfl⟩ := mem_backfill hx
  have hy2 : y ∈ filterYear (rows.map deriveEntry) :=
    (List.Perm.mem_iff
      (List.perm_insertionSort rdesc (filterYear (rows.map deriveEntry)))).mp hy
  have hy3 := List.mem_filter.mp hy2
  obtain ⟨z, _, rfl⟩ := List.mem_map.mp hy3.1
  exact ⟨deriveEntry_stable z p, by simpa using hy3.2⟩

/-- An aligned batch is sorted latest→earliest. -/
theorem align_sorted (rows : List FinRow) : List.Sorted rdesc (align rows) := by
  have hs : List.Sorted rdesc (sortDesc (filterYear (rows.map deriveEntry))) :=
    List.sorted_insertionSort rdesc _
  exact sorted_of_map_key
    (backfill_map_eq keyOf (fun r x => rfl) _).symm hs

/-- C5: the alignment step (derivation of `current_assets` /
`current_liabilities` / `total_liabilities`, drop of year-less rows,
descending sort, `previous_sales` backfill) is idempotent:
`align (align rows) = align rows` for every batch. -/
theorem align_idempotent : ∀ rows : List FinRow, align (align rows) = align rows := by
  intro rows
  have h1 : (align rows).map deriveEntry = align rows :=
    map_eq_self_of_fixed (fun x hx => (align_mem_spec rows x hx).1)
  have h2 : filterYear (align rows) = align rows :=
    List.filter_eq_self.mpr (fun x hx => by
      simpa using (align_mem_spec rows x hx).2)
  have h3 : sortDesc (align rows) = align rows :=
    sortDesc_eq_of_sorted (align_sorted rows)
  have h4 : align (align rows) =
      backfill (sortDesc (filterYear ((align rows).map deriveEntry))) := rfl
  rw [h4, h1, h2, h3]
  have h5 : align rows = backfill (sortDesc (filterYear (rows.map deriveEntry))) := rfl
  rw [h5, backfill_idem]

end Yorizo
